import Mathlib

/-!
Verification of `atlassian/bitbucket/cloud/repositories/pullRequests.py`,
the Bitbucket Cloud pull-request wrapper classes `PullRequests`,
`PullRequest` and `Participant`.

The wrapper classes hold a JSON payload (a Python dict) and a base URL.
We embed JSON values as an inductive type, attribute access as lookups,
and the HTTP-performing methods as functions returning
`Except PyExn HttpRequest`: a thrown Python exception is `Except.error`,
and the single HTTP request a method issues is the `Except.ok` value.
The shared base class `BitbucketCloudBase` is not part of the sources;
its small helpers (`get_data`, `get_time`, `post`, `delete`,
`url_joiner`, paging) are modelled from the spec where noted.
-/

namespace Atlassian

/-- JSON values as stored in the payloads of the wrapper objects.  Numbers are
modelled as integers (pull-request ids and counts are integers). -/
inductive JSON where
  | null : JSON
  | bool (b : Bool) : JSON
  | num (n : Int) : JSON
  | str (s : String) : JSON
  | arr (items : List JSON) : JSON
  | obj (fields : List (String × JSON)) : JSON

/-- Lookup of a key in the field list of a JSON object (first match wins,
like a Python dict in which each key occurs once). -/
def lookupField : List (String × JSON) → String → Option JSON
  | [], _ => none
  | (k, v) :: rest, key => if k == key then some v else lookupField rest key

/-- Python subscript `data[key]`: `some` value when `data` is an object
containing the key, `none` when the subscript raises (KeyError on a
missing key, TypeError on a non-dict). -/
def JSON.index : JSON → String → Option JSON
  | .obj fields, key => lookupField fields key
  | _, _ => none

/-- Python containment test `key in data` for a dict payload. -/
def JSON.hasKey (data : JSON) (key : String) : Bool :=
  (data.index key).isSome

/-- Python equality test between a payload value and a string literal:
true exactly when the value is that string. -/
def JSON.isStrEq : JSON → String → Bool
  | .str t, s => t == s
  | _, _ => false

mutual

/-- Python `str()` of a payload value.  Scalars are rendered exactly as
Python renders them; for containers we render the elements recursively
(Python would additionally quote nested strings, which no code under
verification depends on). -/
def pythonStr : JSON → String
  | .null => "None"
  | .bool true => "True"
  | .bool false => "False"
  | .num n => toString n
  | .str s => s
  | .arr items => "[" ++ pythonStrList items ++ "]"
  | .obj fields => "\x7b" ++ pythonStrFields fields ++ "\x7d"

/-- Comma-separated rendering of the elements of a JSON list. -/
def pythonStrList : List JSON → String
  | [] => ""
  | [x] => pythonStr x
  | x :: xs => pythonStr x ++ ", " ++ pythonStrList xs

/-- Comma-separated rendering of the fields of a JSON object. -/
def pythonStrFields : List (String × JSON) → String
  | [] => ""
  | [(k, v)] => k ++ ": " ++ pythonStr v
  | (k, v) :: xs => k ++ ": " ++ pythonStr v ++ ", " ++ pythonStrFields xs

end

/-- Python exceptions raised by the wrapper methods: the bare
`Exception` of `_check_if_open` and `ValueError` of `merge`/`comment`. -/
inductive PyExn where
  | exn (msg : String) : PyExn
  | valueError (msg : String) : PyExn
deriving DecidableEq

/-- One HTTP request as issued by the base class: the sub-endpoint
relative to the resource URL, and for POST the optional JSON body. -/
inductive HttpRequest where
  | post (endpoint : String) (body : Option JSON) : HttpRequest
  | delete (endpoint : String) : HttpRequest

/-- Modelled from the spec: `BitbucketCloudBase` performs "lazy field
access" into the stored payload; `get_data(key)` returns the payload
field, defaulting to Python `None` when the key is absent. -/
def getData (data : JSON) (key : String) : JSON :=
  (data.index key).getD JSON.null

/-- Modelled from the spec: `BitbucketCloudBase.get_time(key)` is the
lazy accessor for a timestamp field; the time value is represented by
the stored payload field it is parsed from. -/
def getTime (data : JSON) (key : String) : JSON :=
  getData data key

/-- Modelled from the spec: `BitbucketCloudBase.url_joiner` builds the
resource URL by joining the listing URL and the resource id with `/`. -/
def url_joiner (url : String) (id : JSON) : String :=
  url ++ "/" ++ pythonStr id

/-- A `User` wrapper object: base URL (passed as `None` by this module)
and JSON payload. -/
structure User where
  url : Option String
  data : JSON

/-- A `PullRequest` wrapper object: its resource URL and JSON payload. -/
structure PullRequest where
  url : String
  data : JSON

namespace PullRequest

def MERGE_COMMIT : String := "merge_commit"

def MERGE_SQUASH : String := "squash"

def MERGE_FF : String := "fast_forward"

def MERGE_STRATEGIES : List String := [MERGE_COMMIT, MERGE_SQUASH, MERGE_FF]

def STATE_OPEN : String := "OPEN"

def STATE_DECLINED : String := "DECLINED"

def STATE_MERGED : String := "MERGED"

def STATE_SUPERSEDED : String := "SUPERSEDED"

/-- Property `id`: `self.get_data("id")`. -/
def id (pr : PullRequest) : JSON :=
  getData pr.data "id"

/-- Property `title`: `self.get_data("title")`. -/
def title (pr : PullRequest) : JSON :=
  getData pr.data "title"

/-- Property `description`: `self.get_data("description")`. -/
def description (pr : PullRequest) : JSON :=
  getData pr.data "description"

/-- Property `is_declined`: `self.get_data("state") == self.STATE_DECLINED`. -/
def is_declined (pr : PullRequest) : Bool :=
  (getData pr.data "state").isStrEq STATE_DECLINED

/-- Property `is_merged`: `self.get_data("state") == self.STATE_MERGED`. -/
def is_merged (pr : PullRequest) : Bool :=
  (getData pr.data "state").isStrEq STATE_MERGED

/-- Property `is_open`: `self.get_data("state") == self.STATE_OPEN`. -/
def is_open (pr : PullRequest) : Bool :=
  (getData pr.data "state").isStrEq STATE_OPEN

/-- Property `is_superseded`: `self.get_data("state") == self.STATE_SUPERSEDED`. -/
def is_superseded (pr : PullRequest) : Bool :=
  (getData pr.data "state").isStrEq STATE_SUPERSEDED

/-- Property `created_on`: `self.get_time("created_on")`. -/
def created_on (pr : PullRequest) : JSON :=
  getTime pr.data "created_on"

/-- Property `updated_on`: `self.get_time("updated_on")`. -/
def updated_on (pr : PullRequest) : JSON :=
  getTime pr.data "updated_on"

/-- Property `default_merge_strategy`:
`self.get_data("destination")["branch"]["default_merge_strategy"]`.
The two subscripts can raise, hence the `Option`. -/
def default_merge_strategy (pr : PullRequest) : Option JSON :=
  ((getData pr.data "destination").index "branch").bind
    fun branch => branch.index "default_merge_strategy"

/-- Property `close_source_branch`: `self.get_data("close_source_branch")`. -/
def close_source_branch (pr : PullRequest) : JSON :=
  getData pr.data "close_source_branch"

/-- Property `source_branch`: `self.get_data("source")["branch"]["name"]`.
The two subscripts can raise, hence the `Option`. -/
def source_branch (pr : PullRequest) : Option JSON :=
  ((getData pr.data "source").index "branch").bind
    fun branch => branch.index "name"

/-- Property `destination_branch`:
`self.get_data("destination")["branch"]["name"]`. -/
def destination_branch (pr : PullRequest) : Option JSON :=
  ((getData pr.data "destination").index "branch").bind
    fun branch => branch.index "name"

/-- Property `comment_count`: `self.get_data("comment_count")`. -/
def comment_count (pr : PullRequest) : JSON :=
  getData pr.data "comment_count"

/-- Property `task_count`: `self.get_data("task_count")`. -/
def task_count (pr : PullRequest) : JSON :=
  getData pr.data "task_count"

/-- Property `declined_reason`: `self.get_data("reason")`. -/
def declined_reason (pr : PullRequest) : JSON :=
  getData pr.data "reason"

/-- Property `author`: `User(None, self.get_data("author"))`. -/
def author (pr : PullRequest) : User :=
  User.mk none (getData pr.data "author")

end PullRequest

/-- The exception raised by `_check_if_open`. -/
def notOpenExn : PyExn :=
  .exn "Pull Request isn\x27t open"

namespace PullRequest

/-- Guard `_check_if_open`: raises an `Exception` saying the pull request is not open
unless the `is_open` property holds. -/
def check_if_open (pr : PullRequest) : Except PyExn Unit :=
  if !pr.is_open then .error notOpenExn else .ok ()

/-- Method `approve`: after the open guard, POSTs `{"approved": True}`
to the `approve` sub-endpoint. -/
def approve (pr : PullRequest) : Except PyExn HttpRequest := do
  pr.check_if_open
  pure (.post "approve" (some (.obj [("approved", .bool true)])))

/-- Method `unapprove`: after the open guard, DELETEs the `approve`
sub-endpoint. -/
def unapprove (pr : PullRequest) : Except PyExn HttpRequest := do
  pr.check_if_open
  pure (.delete "approve")

/-- Method `request_changes`: after the open guard, POSTs
`{"request-changes": True}` to the `request-changes` sub-endpoint. -/
def request_changes (pr : PullRequest) : Except PyExn HttpRequest := do
  pr.check_if_open
  pure (.post "request-changes" (some (.obj [("request-changes", .bool true)])))

/-- Method `unrequest_changes`: after the open guard, DELETEs the
`request-changes` sub-endpoint. -/
def unrequest_changes (pr : PullRequest) : Except PyExn HttpRequest := do
  pr.check_if_open
  pure (.delete "request-changes")

/-- Method `decline`: after the open guard, POSTs (without a body) to
the `decline` sub-endpoint. -/
def decline (pr : PullRequest) : Except PyExn HttpRequest := do
  pr.check_if_open
  pure (.post "decline" none)

/-- Python `close_source_branch or self.close_source_branch` in `merge`:
the argument when it is truthy (`True`), the stored payload flag when
the argument is `None` or `False`. -/
def closeSourceBranchValue (arg : Option Bool) (stored : JSON) : JSON :=
  match arg with
  | some true => .bool true
  | _ => stored

/-- The `ValueError` message of `merge` for an unknown strategy. -/
def mergeStrategyErrorMsg : String :=
  "merge_stragegy must be [\x27merge_commit\x27, \x27squash\x27, \x27fast_forward\x27]"

/-- Method `merge(merge_strategy=None, close_source_branch=None)`: after
the open guard, raises `ValueError` when a non-`None` strategy is not in
`MERGE_STRATEGIES`, otherwise POSTs the body
`{"close_source_branch": close_source_branch or self.close_source_branch,
"merge_strategy": merge_strategy}` to the `merge` sub-endpoint. -/
def merge (pr : PullRequest) (merge_strategy : Option String)
    (cl_source_branch : Option Bool) : Except PyExn HttpRequest := do
  pr.check_if_open
  if (match merge_strategy with
      | some ms => !(MERGE_STRATEGIES.contains ms)
      | none => false) then
    .error (.valueError mergeStrategyErrorMsg)
  else
    pure (.post "merge" (some (.obj
      [("close_source_branch",
         closeSourceBranchValue cl_source_branch pr.close_source_branch),
       ("merge_strategy",
         match merge_strategy with
         | some s => .str s
         | none => .null)])))

/-- Method `comment(raw_message)`: raises `ValueError` on a falsy
message, otherwise POSTs `{"content": {"raw": raw_message}}` to the
`comments` sub-endpoint. -/
def comment (_pr : PullRequest) (raw_message : String) : Except PyExn HttpRequest :=
  if raw_message == "" then .error (.valueError "No message set")
  else pure (.post "comments" (some (.obj
    [("content", .obj [("raw", .str raw_message)])])))

end PullRequest

/-- The `PullRequests` listing wrapper: it only carries the listing URL
that resource URLs are joined onto. -/
structure PullRequests where
  url : String

namespace PullRequests

/-- Private helper `__get_object(data)`: returns Python `None` for a
payload containing an `errors` key, otherwise constructs a
`PullRequest` at `url_joiner(self.url, data["id"])`; the subscript
`data["id"]` raises `KeyError` when the key is absent (`Except.error`). -/
def getObject (s : PullRequests) (data : JSON) : Except PyExn (Option PullRequest) :=
  if data.hasKey "errors" then
    .ok none
  else
    match data.index "id" with
    | none => .error (.exn "KeyError: id")
    | some i => .ok (some (PullRequest.mk (url_joiner s.url i) data))

/-- The `params` dict built by `each`: starts empty, gains `"sort"` when
`sort` is not `None`, then `"q"` when `q` is not `None`. -/
def eachParams (q sort : Option String) : List (String × String) :=
  (match sort with
   | some s => [("sort", s)]
   | none => []) ++
  (match q with
   | some qs => [("q", qs)]
   | none => [])

/-- Method `each(q=None, sort=None)`: requests the paged listing with
`eachParams` and yields `__get_object` of every payload item the
pagination returns, in order.  Pagination itself lives in the base
class (modelled from the spec: it produces the list `pages` of payload
items), so `pages` is a parameter.  The result is the params passed to
the pagination together with the yielded objects. -/
def each (s : PullRequests) (q sort : Option String) (pages : List JSON) :
    List (String × String) × List (Except PyExn (Option PullRequest)) :=
  (eachParams q sort, pages.map s.getObject)

/-- Method `get(id)`: fetches the pull request payload over HTTP via the
base class (modelled from the spec: the fetch produces the `response`
payload) and returns `__get_object` of it. -/
def get (s : PullRequests) (response : JSON) : Except PyExn (Option PullRequest) :=
  s.getObject response

end PullRequests

/-- A `Participant` wrapper object: constructed with URL `None`, so only
the JSON payload remains. -/
structure Participant where
  data : JSON

namespace Participant

def ROLE_REVIEWER : String := "REVIEWER"

def ROLE_PARTICIPANT : String := "PARTICIPANT"

def CHANGES_REQUESTED : String := "changes_requested"

/-- Property `user`: `User(None, self.get_data("user"))`. -/
def user (p : Participant) : User :=
  User.mk none (getData p.data "user")

/-- Property `is_participant`: `self.get_data("role") == self.ROLE_PARTICIPANT`. -/
def is_participant (p : Participant) : Bool :=
  (getData p.data "role").isStrEq ROLE_PARTICIPANT

/-- Property `is_reviewer`: `self.get_data("role") == self.ROLE_REVIEWER`. -/
def is_reviewer (p : Participant) : Bool :=
  (getData p.data "role").isStrEq ROLE_REVIEWER

/-- Property `has_changes_requested`:
`str(self.get_data("state")) == self.CHANGES_REQUESTED`. -/
def has_changes_requested (p : Participant) : Bool :=
  pythonStr (getData p.data "state") == CHANGES_REQUESTED

/-- Property `has_approved`: `self.get_data("approved")`. -/
def has_approved (p : Participant) : JSON :=
  getData p.data "approved"

/-- Property `participated_on`: `self.get_time("participated_on")`. -/
def participated_on (p : Participant) : JSON :=
  getTime p.data "participated_on"

end Participant

/-! Reading properties as observable steps.  Each property body is a
`return` of an expression over `self`; embedding it in state-passing
style, a read produces the value together with the object after the
read.  `PropValue` gathers the possible results: a JSON value, a
Python bool, a `User` object, or a raised exception (for the nested
accessors on payloads lacking the path). -/

/-- Result of reading one property. -/
inductive PropValue where
  | jsonVal (j : JSON) : PropValue
  | boolVal (b : Bool) : PropValue
  | userVal (u : User) : PropValue
  | raised : PropValue

/-- The readable properties of `PullRequest`. -/
inductive PRProp where
  | id | title | description
  | is_declined | is_merged | is_open | is_superseded
  | created_on | updated_on
  | default_merge_strategy | close_source_branch
  | source_branch | destination_branch
  | comment_count | task_count | declined_reason | author

/-- Reading one `PullRequest` property: the value and the object after
the read.  No property body assigns to `self`, so the resulting object
is the receiver itself. -/
def readPRProp (p : PRProp) (pr : PullRequest) : PropValue × PullRequest :=
  (match p with
   | .id => .jsonVal pr.id
   | .title => .jsonVal pr.title
   | .description => .jsonVal pr.description
   | .is_declined => .boolVal pr.is_declined
   | .is_merged => .boolVal pr.is_merged
   | .is_open => .boolVal pr.is_open
   | .is_superseded => .boolVal pr.is_superseded
   | .created_on => .jsonVal pr.created_on
   | .updated_on => .jsonVal pr.updated_on
   | .default_merge_strategy =>
       match pr.default_merge_strategy with
       | some v => .jsonVal v
       | none => .raised
   | .close_source_branch => .jsonVal pr.close_source_branch
   | .source_branch =>
       match pr.source_branch with
       | some v => .jsonVal v
       | none => .raised
   | .destination_branch =>
       match pr.destination_branch with
       | some v => .jsonVal v
       | none => .raised
   | .comment_count => .jsonVal pr.comment_count
   | .task_count => .jsonVal pr.task_count
   | .declined_reason => .jsonVal pr.declined_reason
   | .author => .userVal pr.author,
   pr)

/-- Reading a sequence of `PullRequest` properties, threading the
object through. -/
def readPRSeq : List PRProp → PullRequest → List PropValue × PullRequest
  | [], pr => ([], pr)
  | p :: rest, pr =>
      let step := readPRProp p pr
      let tail := readPRSeq rest step.2
      (step.1 :: tail.1, tail.2)

/-- The readable properties of `Participant`. -/
inductive PartProp where
  | user | is_participant | is_reviewer
  | has_changes_requested | has_approved | participated_on

/-- Reading one `Participant` property: the value and the object after
the read. -/
def readPartProp (p : PartProp) (pt : Participant) : PropValue × Participant :=
  (match p with
   | .user => .userVal pt.user
   | .is_participant => .boolVal pt.is_participant
   | .is_reviewer => .boolVal pt.is_reviewer
   | .has_changes_requested => .boolVal pt.has_changes_requested
   | .has_approved => .jsonVal pt.has_approved
   | .participated_on => .jsonVal pt.participated_on,
   pt)

/-- Reading a sequence of `Participant` properties, threading the
object through. -/
def readPartSeq : List PartProp → Participant → List PropValue × Participant
  | [], pt => ([], pt)
  | p :: rest, pt =>
      let step := readPartProp p pt
      let tail := readPartSeq rest step.2
      (step.1 :: tail.1, tail.2)

/-! Concrete payloads and wrapper objects used by the witnesses. -/

/-- An open pull-request payload with the usual fields. -/
def openPayload : JSON :=
  .obj [("id", .num 1), ("state", .str "OPEN"), ("title", .str "T"),
        ("description", .str "D"), ("close_source_branch", .bool true),
        ("comment_count", .num 3), ("task_count", .num 0),
        ("source", .obj [("branch", .obj [("name", .str "feat")])]),
        ("destination", .obj [("branch", .obj [("name", .str "main")])])]

/-- An open pull request built from `openPayload`. -/
def prOpen : PullRequest :=
  ⟨"https://api.example/pullrequests/1", openPayload⟩

/-- A merged pull-request payload. -/
def mergedPayload : JSON :=
  .obj [("id", .num 2), ("state", .str "MERGED")]

/-- A pull request in state MERGED. -/
def prMergedState : PullRequest :=
  ⟨"https://api.example/pullrequests/2", mergedPayload⟩

/-- A concrete listing wrapper. -/
def listingPRs : PullRequests :=
  ⟨"https://api.example/pullrequests"⟩

/-- An error payload as returned by the server for a failed lookup. -/
def errPayload : JSON :=
  .obj [("errors", .arr [.str "not found"])]

/-! Helper lemmas about the `Except` monad and the guard. -/

/-- Pure in the `Except` monad is the `ok` constructor. -/
theorem exceptPure {ε α : Type} (a : α) :
    (pure a : Except ε α) = .ok a := rfl

/-- Bind on a successful `Except` computation runs the continuation. -/
theorem exceptBind_ok {ε α β : Type} (a : α) (f : α → Except ε β) :
    ((Except.ok a : Except ε α) >>= f) = f a := rfl

/-- Bind on a failed `Except` computation propagates the error. -/
theorem exceptBind_error {ε α β : Type} (e : ε) (f : α → Except ε β) :
    ((Except.error e : Except ε α) >>= f) = .error e := rfl

/-- The open guard succeeds on an open pull request. -/
theorem check_if_open_of_open {pr : PullRequest} (h : pr.is_open = true) :
    pr.check_if_open = .ok () := by
  simp [PullRequest.check_if_open, h]

/-- The open guard raises on a pull request that is not open. -/
theorem check_if_open_of_not_open {pr : PullRequest} (h : pr.is_open = false) :
    pr.check_if_open = .error notOpenExn := by
  simp [PullRequest.check_if_open, h]

/-- C1: for every `PullRequest` whose payload state is not OPEN, each of
`approve`, `unapprove`, `request_changes`, `unrequest_changes`, `decline`
and `merge` raises (returns `Except.error`, so no HTTP request value is
produced); when the state is OPEN the guard passes and each method
proceeds (the five body-free methods succeed outright, and `merge` never
fails with the guard exception). -/
theorem C1_guard_blocks_unless_open (pr : PullRequest) :
    (pr.is_open = false →
      pr.approve = .error notOpenExn ∧
      pr.unapprove = .error notOpenExn ∧
      pr.request_changes = .error notOpenExn ∧
      pr.unrequest_changes = .error notOpenExn ∧
      pr.decline = .error notOpenExn ∧
      ∀ ms cs, pr.merge ms cs = .error notOpenExn) ∧
    (pr.is_open = true →
      (∃ r, pr.approve = .ok r) ∧
      (∃ r, pr.unapprove = .ok r) ∧
      (∃ r, pr.request_changes = .ok r) ∧
      (∃ r, pr.unrequest_changes = .ok r) ∧
      (∃ r, pr.decline = .ok r) ∧
      ∀ ms cs, pr.merge ms cs ≠ .error notOpenExn) := by
  constructor
  · intro h
    refine ⟨?_, ?_, ?_, ?_, ?_, fun ms cs => ?_⟩ <;>
      simp [PullRequest.approve, PullRequest.unapprove, PullRequest.request_changes,
        PullRequest.unrequest_changes, PullRequest.decline, PullRequest.merge,
        check_if_open_of_not_open h, exceptBind_error]
  · intro h
    refine ⟨⟨.post "approve" (some (.obj [("approved", .bool true)])), ?_⟩,
        ⟨.delete "approve", ?_⟩,
        ⟨.post "request-changes" (some (.obj [("request-changes", .bool true)])), ?_⟩,
        ⟨.delete "request-changes", ?_⟩,
        ⟨.post "decline" none, ?_⟩, fun ms cs => ?_⟩ <;>
      simp [PullRequest.approve, PullRequest.unapprove, PullRequest.request_changes,
        PullRequest.unrequest_changes, PullRequest.decline, PullRequest.merge,
        check_if_open_of_open h, exceptBind_ok]
    split <;> simp [notOpenExn, exceptPure]

/-- Witness for C1 at a MERGED and at an OPEN pull request. -/
theorem C1_guard_blocks_unless_open_witness :
    PullRequest.approve prMergedState = .error notOpenExn ∧
    ∃ r, PullRequest.approve prOpen = .ok r :=
  ⟨((C1_guard_blocks_unless_open prMergedState).1 (by decide)).1,
   ((C1_guard_blocks_unless_open prOpen).2 (by decide)).1⟩

/-- C2: on an open pull request each state-transition method issues
exactly the HTTP request of its sub-endpoint: `approve` POSTs
`{"approved": True}` to `approve`, `unapprove` DELETEs `approve`,
`request_changes` POSTs `{"request-changes": True}` to
`request-changes`, `unrequest_changes` DELETEs `request-changes`,
`decline` POSTs to `decline`, and `merge` POSTs to `merge`. -/
theorem C2_open_methods_issue_requests (pr : PullRequest) (h : pr.is_open = true) :
    pr.approve = .ok (.post "approve" (some (.obj [("approved", .bool true)]))) ∧
    pr.unapprove = .ok (.delete "approve") ∧
    pr.request_changes =
      .ok (.post "request-changes" (some (.obj [("request-changes", .bool true)]))) ∧
    pr.unrequest_changes = .ok (.delete "request-changes") ∧
    pr.decline = .ok (.post "decline" none) ∧
    ∀ cs, pr.merge none cs =
      .ok (.post "merge" (some (.obj
        [("close_source_branch", PullRequest.closeSourceBranchValue cs pr.close_source_branch),
         ("merge_strategy", .null)]))) := by
  refine ⟨?_, ?_, ?_, ?_, ?_, fun cs => ?_⟩ <;>
    simp [PullRequest.approve, PullRequest.unapprove, PullRequest.request_changes,
      PullRequest.unrequest_changes, PullRequest.decline, PullRequest.merge,
      check_if_open_of_open h, exceptBind_ok]

/-- Witness for C2 at the concrete open pull request. -/
theorem C2_open_methods_issue_requests_witness :
    PullRequest.approve prOpen = .ok (.post "approve" (some (.obj [("approved", .bool true)]))) ∧
    PullRequest.decline prOpen = .ok (.post "decline" none) :=
  ⟨(C2_open_methods_issue_requests prOpen (by decide)).1,
   (C2_open_methods_issue_requests prOpen (by decide)).2.2.2.2.1⟩

/-- C3: on an open pull request, `merge` raises `ValueError` (issuing no
request) when a non-`None` strategy is outside `MERGE_STRATEGIES`, and
otherwise POSTs to `merge` with the given strategy in the body. -/
theorem C3_merge_strategy_validation (pr : PullRequest) (h : pr.is_open = true) :
    (∀ ms cs, ms ∉ PullRequest.MERGE_STRATEGIES →
      pr.merge (some ms) cs = .error (.valueError PullRequest.mergeStrategyErrorMsg)) ∧
    (∀ cs, pr.merge none cs =
      .ok (.post "merge" (some (.obj
        [("close_source_branch", PullRequest.closeSourceBranchValue cs pr.close_source_branch),
         ("merge_strategy", .null)])))) ∧
    (∀ ms cs, ms ∈ PullRequest.MERGE_STRATEGIES →
      pr.merge (some ms) cs =
        .ok (.post "merge" (some (.obj
          [("close_source_branch", PullRequest.closeSourceBranchValue cs pr.close_source_branch),
           ("merge_strategy", .str ms)])))) := by
  refine ⟨fun ms cs hms => ?_, fun cs => ?_, fun ms cs hms => ?_⟩
  · simp [PullRequest.merge, check_if_open_of_open h, exceptBind_ok]
    exact fun hmem => absurd hmem hms
  · simp [PullRequest.merge, check_if_open_of_open h, exceptBind_ok]
  · simp [PullRequest.merge, check_if_open_of_open h, exceptBind_ok, hms]

/-- Witness for C3: an unknown strategy raises `ValueError`, a known one
is sent in the body. -/
theorem C3_merge_strategy_validation_witness :
    PullRequest.merge prOpen (some "rebase") none =
      .error (.valueError PullRequest.mergeStrategyErrorMsg) ∧
    PullRequest.merge prOpen (some "squash") none =
      .ok (.post "merge" (some (.obj
        [("close_source_branch",
           PullRequest.closeSourceBranchValue none (PullRequest.close_source_branch prOpen)),
         ("merge_strategy", .str "squash")]))) :=
  ⟨(C3_merge_strategy_validation prOpen (by decide)).1 "rebase" none (by decide),
   (C3_merge_strategy_validation prOpen (by decide)).2.2 "squash" none (by decide)⟩

/-- Subscripting the Python `None` value raises, i.e. yields no value. -/
theorem JSON.index_null (key : String) : JSON.null.index key = none := rfl

/-- Python string comparison of a payload value succeeds exactly on the
equal string value. -/
theorem JSON.isStrEq_eq_true_iff (j : JSON) (s : String) :
    j.isStrEq s = true ↔ j = .str s := by
  cases j <;> simp [JSON.isStrEq]

/-- Comparing a lazily accessed field with a string succeeds exactly
when the payload holds that string under the key. -/
theorem isStrEq_getData_iff (p : JSON) (key s : String) :
    (getData p key).isStrEq s = true ↔ p.index key = some (.str s) := by
  cases h : p.index key with
  | none => simp [getData, h, JSON.isStrEq]
  | some v => simp [getData, h, JSON.isStrEq_eq_true_iff]

/-- C4: each plain property returns the identically named payload field,
and each state predicate holds exactly when the `state` field of the payload
is its constant. -/
theorem C4_properties_mirror_payload (u : String) (p : JSON) :
    (∀ v, p.index "id" = some v → (PullRequest.mk u p).id = v) ∧
    (∀ v, p.index "title" = some v → (PullRequest.mk u p).title = v) ∧
    (∀ v, p.index "description" = some v → (PullRequest.mk u p).description = v) ∧
    (∀ v, p.index "close_source_branch" = some v →
      (PullRequest.mk u p).close_source_branch = v) ∧
    (∀ v, p.index "comment_count" = some v → (PullRequest.mk u p).comment_count = v) ∧
    (∀ v, p.index "task_count" = some v → (PullRequest.mk u p).task_count = v) ∧
    ((PullRequest.mk u p).is_open = true ↔ p.index "state" = some (.str "OPEN")) ∧
    ((PullRequest.mk u p).is_declined = true ↔ p.index "state" = some (.str "DECLINED")) ∧
    ((PullRequest.mk u p).is_merged = true ↔ p.index "state" = some (.str "MERGED")) ∧
    ((PullRequest.mk u p).is_superseded = true ↔ p.index "state" = some (.str "SUPERSEDED")) := by
  refine ⟨fun v hv => ?_, fun v hv => ?_, fun v hv => ?_, fun v hv => ?_,
      fun v hv => ?_, fun v hv => ?_, ?_, ?_, ?_, ?_⟩
  · simp [PullRequest.id, getData, hv]
  · simp [PullRequest.title, getData, hv]
  · simp [PullRequest.description, getData, hv]
  · simp [PullRequest.close_source_branch, getData, hv]
  · simp [PullRequest.comment_count, getData, hv]
  · simp [PullRequest.task_count, getData, hv]
  · simpa [PullRequest.is_open, PullRequest.STATE_OPEN] using
      isStrEq_getData_iff p "state" "OPEN"
  · simpa [PullRequest.is_declined, PullRequest.STATE_DECLINED] using
      isStrEq_getData_iff p "state" "DECLINED"
  · simpa [PullRequest.is_merged, PullRequest.STATE_MERGED] using
      isStrEq_getData_iff p "state" "MERGED"
  · simpa [PullRequest.is_superseded, PullRequest.STATE_SUPERSEDED] using
      isStrEq_getData_iff p "state" "SUPERSEDED"

/-- Witness for C4 on the concrete open payload. -/
theorem C4_properties_mirror_payload_witness :
    PullRequest.id (PullRequest.mk "u" openPayload) = .num 1 ∧
    (PullRequest.is_open (PullRequest.mk "u" openPayload) = true ↔
      openPayload.index "state" = some (.str "OPEN")) :=
  ⟨(C4_properties_mirror_payload "u" openPayload).1 (.num 1) rfl,
   (C4_properties_mirror_payload "u" openPayload).2.2.2.2.2.2.1⟩

/-- C5 counterexample: not every property accessor is total; on the
empty payload, `source_branch` raises (the subscript chain fails), so
it does not return a value. -/
theorem C5_accessors_total_counterexample :
    ¬ (∀ (u : String) (p : JSON), ((PullRequest.mk u p).source_branch).isSome = true) :=
  fun h => absurd (h "" (.obj [])) (by decide)

/-- C5 amended: exactly the three nested accessors `source_branch`,
`destination_branch` and `default_merge_strategy` can raise; every
other property read returns a value on any payload, and each nested
accessor returns a value precisely when the payload contains its full
nested path. -/
theorem C5_amended_accessor_totality (u : String) (p : JSON) :
    (∀ q : PRProp, (readPRProp q (PullRequest.mk u p)).1 = .raised →
      q = .source_branch ∨ q = .destination_branch ∨ q = .default_merge_strategy) ∧
    (∀ v, (PullRequest.mk u p).source_branch = some v ↔
      ∃ s b, p.index "source" = some s ∧ s.index "branch" = some b ∧
        b.index "name" = some v) ∧
    (∀ v, (PullRequest.mk u p).destination_branch = some v ↔
      ∃ s b, p.index "destination" = some s ∧ s.index "branch" = some b ∧
        b.index "name" = some v) ∧
    (∀ v, (PullRequest.mk u p).default_merge_strategy = some v ↔
      ∃ s b, p.index "destination" = some s ∧ s.index "branch" = some b ∧
        b.index "default_merge_strategy" = some v) := by
  refine ⟨fun q hq => ?_, fun v => ?_, fun v => ?_, fun v => ?_⟩
  · cases q <;>
      first
        | exact Or.inl rfl
        | exact Or.inr (Or.inl rfl)
        | exact Or.inr (Or.inr rfl)
        | exact absurd hq (by simp [readPRProp])
  · cases hs : p.index "source" with
    | none => simp [PullRequest.source_branch, getData, hs, JSON.index_null]
    | some s => simp [PullRequest.source_branch, getData, hs, Option.bind_eq_some]
  · cases hs : p.index "destination" with
    | none => simp [PullRequest.destination_branch, getData, hs, JSON.index_null]
    | some s => simp [PullRequest.destination_branch, getData, hs, Option.bind_eq_some]
  · cases hs : p.index "destination" with
    | none => simp [PullRequest.default_merge_strategy, getData, hs, JSON.index_null]
    | some s => simp [PullRequest.default_merge_strategy, getData, hs, Option.bind_eq_some]

/-- Witness for the amendment of C5: on the open payload the nested source
branch path exists and is returned. -/
theorem C5_amended_accessor_totality_witness :
    PullRequest.source_branch (PullRequest.mk "u" openPayload) = some (.str "feat") :=
  ((C5_amended_accessor_totality "u" openPayload).2.1 (.str "feat")).mpr
    ⟨_, _, rfl, rfl, rfl⟩

/-- C10: the four state predicates test one payload field against four
pairwise distinct constants, so at most one of them holds. -/
theorem C10_state_predicates_exclusive (pr : PullRequest) :
    (pr.is_open = true →
      pr.is_declined = false ∧ pr.is_merged = false ∧ pr.is_superseded = false) ∧
    (pr.is_declined = true → pr.is_merged = false ∧ pr.is_superseded = false) ∧
    (pr.is_merged = true → pr.is_superseded = false) := by
  simp only [PullRequest.is_open, PullRequest.is_declined, PullRequest.is_merged,
    PullRequest.is_superseded, PullRequest.STATE_OPEN, PullRequest.STATE_DECLINED,
    PullRequest.STATE_MERGED, PullRequest.STATE_SUPERSEDED]
  cases h : getData pr.data "state"
  case str t =>
    refine ⟨fun h1 => ?_, fun h1 => ?_, fun h1 => ?_⟩
    · have ht : t = "OPEN" := by simpa [JSON.isStrEq] using h1
      subst ht; decide
    · have ht : t = "DECLINED" := by simpa [JSON.isStrEq] using h1
      subst ht; decide
    · have ht : t = "MERGED" := by simpa [JSON.isStrEq] using h1
      subst ht; decide
  all_goals simp [JSON.isStrEq]

/-- Witness for C10 at the concrete open pull request. -/
theorem C10_state_predicates_exclusive_witness :
    PullRequest.is_declined prOpen = false :=
  ((C10_state_predicates_exclusive prOpen).1 (by decide)).1

/-- C6: `each` passes to the pagination a params dict containing `sort`
exactly when `sort` is given and `q` exactly when `q` is given, and
yields `__get_object` of each pagination item, in order. -/
theorem C6_each_params_and_order (s : PullRequests) (q sort : Option String)
    (pages : List JSON) :
    (s.each q sort pages).1.lookup "sort" = sort ∧
    (s.each q sort pages).1.lookup "q" = q ∧
    (s.each q sort pages).2.length = pages.length ∧
    ∀ i : Nat, (s.each q sort pages).2[i]? = (pages[i]?).map s.getObject := by
  refine ⟨?_, ?_, ?_, fun i => ?_⟩ <;>
    cases sort <;> cases q <;>
      simp [PullRequests.each, PullRequests.eachParams, List.lookup, List.getElem?_map]

/-- Witness for C6 at concrete query arguments and a one-item page. -/
theorem C6_each_params_and_order_witness :
    (listingPRs.each (some "state=\x22OPEN\x22") (some "id") [mergedPayload]).1.lookup "sort" =
      some "id" :=
  (C6_each_params_and_order listingPRs (some "state=\x22OPEN\x22") (some "id") [mergedPayload]).1

/-- Reading one `PullRequest` property returns the receiver unchanged. -/
theorem readPRProp_state (q : PRProp) (pr : PullRequest) :
    (readPRProp q pr).2 = pr := rfl

/-- Reading one `Participant` property returns the receiver unchanged. -/
theorem readPartProp_state (q : PartProp) (pt : Participant) :
    (readPartProp q pt).2 = pt := rfl

/-- A sequence of `PullRequest` property reads leaves the object as it
started. -/
theorem readPRSeq_preserves (ps : List PRProp) (pr : PullRequest) :
    (readPRSeq ps pr).2 = pr := by
  induction ps with
  | nil => rfl
  | cons p rest ih => simp [readPRSeq, readPRProp_state, ih]

/-- A sequence of `Participant` property reads leaves the object as it
started. -/
theorem readPartSeq_preserves (ps : List PartProp) (pt : Participant) :
    (readPartSeq ps pt).2 = pt := by
  induction ps with
  | nil => rfl
  | cons p rest ih => simp [readPartSeq, readPartProp_state, ih]

/-- C7: property reads are pure: any sequence of reads leaves the
stored payload and URL unchanged, and the value read depends only on
the stored payload. -/
theorem C7_property_reads_pure :
    (∀ (pr : PullRequest) (ps : List PRProp), (readPRSeq ps pr).2 = pr) ∧
    (∀ (pt : Participant) (ps : List PartProp), (readPartSeq ps pt).2 = pt) ∧
    (∀ (q : PRProp) (pr1 pr2 : PullRequest), pr1.data = pr2.data →
      (readPRProp q pr1).1 = (readPRProp q pr2).1) ∧
    (∀ (q : PartProp) (pt1 pt2 : Participant), pt1.data = pt2.data →
      (readPartProp q pt1).1 = (readPartProp q pt2).1) := by
  refine ⟨fun pr ps => readPRSeq_preserves ps pr,
      fun pt ps => readPartSeq_preserves ps pt,
      fun q pr1 pr2 h => ?_, fun q pt1 pt2 h => ?_⟩
  · cases q <;> simp [readPRProp, PullRequest.id, PullRequest.title,
      PullRequest.description, PullRequest.is_declined, PullRequest.is_merged,
      PullRequest.is_open, PullRequest.is_superseded, PullRequest.created_on,
      PullRequest.updated_on, PullRequest.default_merge_strategy,
      PullRequest.close_source_branch, PullRequest.source_branch,
      PullRequest.destination_branch, PullRequest.comment_count,
      PullRequest.task_count, PullRequest.declined_reason, PullRequest.author, h]
  · cases q <;> simp [readPartProp, Participant.user, Participant.is_participant,
      Participant.is_reviewer, Participant.has_changes_requested,
      Participant.has_approved, Participant.participated_on, h]

/-- Witness for C7: reads on the concrete open pull request leave it
unchanged, and a read on an equal payload under a different URL
returns the same value. -/
theorem C7_property_reads_pure_witness :
    (readPRSeq [PRProp.id, PRProp.title] prOpen).2 = prOpen ∧
    (readPRProp PRProp.id prOpen).1 =
      (readPRProp PRProp.id (PullRequest.mk "other" openPayload)).1 :=
  ⟨C7_property_reads_pure.1 prOpen [PRProp.id, PRProp.title],
   C7_property_reads_pure.2.2.1 PRProp.id prOpen (PullRequest.mk "other" openPayload) rfl⟩

/-- C8: on an open pull request whose stored `close_source_branch` flag
is true, `merge` called with the explicit argument
`close_source_branch=False` still sends `close_source_branch: true`,
because the Python `or` fallback lets the stored true flag override the
falsy argument. -/
theorem C8_merge_false_arg_overridden (pr : PullRequest)
    (hopen : pr.is_open = true)
    (hflag : pr.close_source_branch = .bool true) :
    pr.merge none (some false) =
      .ok (.post "merge" (some (.obj
        [("close_source_branch", .bool true), ("merge_strategy", .null)]))) ∧
    ∀ ms, ms ∈ PullRequest.MERGE_STRATEGIES →
      pr.merge (some ms) (some false) =
        .ok (.post "merge" (some (.obj
          [("close_source_branch", .bool true), ("merge_strategy", .str ms)]))) := by
  constructor
  · simp [PullRequest.merge, check_if_open_of_open hopen, exceptBind_ok,
      PullRequest.closeSourceBranchValue, hflag]
  · intro ms hms
    simp [PullRequest.merge, check_if_open_of_open hopen, exceptBind_ok,
      PullRequest.closeSourceBranchValue, hflag, hms]

/-- Witness for C8 at the concrete open pull request with a true flag. -/
theorem C8_merge_false_arg_overridden_witness :
    PullRequest.merge prOpen none (some false) =
      .ok (.post "merge" (some (.obj
        [("close_source_branch", .bool true), ("merge_strategy", .null)]))) :=
  (C8_merge_false_arg_overridden prOpen (by decide) rfl).1

/-- C9: `__get_object` (hence `get`, and `each` itemwise) returns `None`
for every payload containing an `errors` key; a `PullRequest` is
constructed only from payloads without `errors`, at the listing URL
joined with the `id` field of the payload. -/
theorem C9_get_object_filters_errors (s : PullRequests) (data : JSON) :
    (data.hasKey "errors" = true →
      s.get data = .ok none ∧
      ∀ q sort pages (i : Nat), pages[i]? = some data →
        (s.each q sort pages).2[i]? = some (.ok none)) ∧
    (∀ i, data.hasKey "errors" = false → data.index "id" = some i →
      s.get data = .ok (some (PullRequest.mk (url_joiner s.url i) data))) ∧
    (∀ pr, s.get data = .ok (some pr) →
      data.hasKey "errors" = false ∧
      ∃ i, data.index "id" = some i ∧ pr = PullRequest.mk (url_joiner s.url i) data) := by
  refine ⟨fun he => ⟨?_, fun q sort pages i hi => ?_⟩,
      fun i he hid => ?_, fun pr hpr => ?_⟩
  · simp [PullRequests.get, PullRequests.getObject, he]
  · simp [PullRequests.each, List.getElem?_map, hi, PullRequests.getObject, he]
  · simp [PullRequests.get, PullRequests.getObject, he, hid]
  · simp only [PullRequests.get, PullRequests.getObject] at hpr
    by_cases he : data.hasKey "errors" = true
    · rw [if_pos he] at hpr
      exact absurd hpr (by simp)
    · rw [if_neg he] at hpr
      cases hid : data.index "id" with
      | none =>
          rw [hid] at hpr
          exact absurd hpr (by simp)
      | some i =>
          rw [hid] at hpr
          simp only [Except.ok.injEq, Option.some.injEq] at hpr
          exact ⟨by simpa using he, i, rfl, hpr.symm⟩

/-- Witness for C9: an error payload yields `None`, and an ordinary
payload yields a `PullRequest` at the joined URL. -/
theorem C9_get_object_filters_errors_witness :
    listingPRs.get errPayload = .ok none ∧
    listingPRs.get mergedPayload =
      .ok (some (PullRequest.mk (url_joiner listingPRs.url (.num 2)) mergedPayload)) :=
  ⟨((C9_get_object_filters_errors listingPRs errPayload).1 rfl).1,
   (C9_get_object_filters_errors listingPRs mergedPayload).2.1 (.num 2) rfl rfl⟩

end Atlassian
